import Mathlib

/-!
Verification of the video-dl repository (src/downloader.py, src/app.py,
src/cli.py) against its natural-language specification.

The Python code is shallowly embedded: the external yt-dlp engine is an
oracle (a function parameter); Python dictionaries coming from the engine
become structures whose optional keys are `Option` fields; Python `x or y`
truthiness on numbers/strings (where `0`, `None`, `""` are falsy) is made
explicit; float arithmetic is embedded as exact rational arithmetic `ℚ`.
Dictionary keys that the source reads with a plain default
(`d.get(key, default)`) and never distinguishes from the default are
modelled as plain fields already carrying the defaulted value.
-/

/-- A raw progress dictionary as passed by the engine to the progress hook
(`_progress_hook` in downloader.py).  Keys the hook reads with `or`
fall-through are `Option` fields (`None` possible). -/
structure RawProgress where
  status : Option String
  total_bytes : Option Nat
  total_bytes_estimate : Option Nat
  downloaded_bytes : Option Nat
  speed : Option ℚ
  eta : Option Nat
  filename : String
deriving DecidableEq, Repr

/-- The `DownloadProgress` dataclass of downloader.py. -/
structure DownloadProgress where
  status : String
  downloaded_bytes : Nat
  total_bytes : Nat
  speed : ℚ
  eta : Nat
  filename : String
  percent : ℚ
deriving DecidableEq, Repr

/-- Python `a or b` on an optional integer: `None` and `0` are falsy.
Models `d.get('total_bytes') or k` in `_progress_hook`. -/
def pyOrNat (a : Option Nat) (k : Nat) : Nat :=
  match a with
  | some n => if n = 0 then k else n
  | none => k

/-- `total = d.get('total_bytes') or d.get('total_bytes_estimate') or 0`
(downloader.py line 50). -/
def pyTotal (d : RawProgress) : Nat :=
  pyOrNat d.total_bytes (pyOrNat d.total_bytes_estimate 0)

/-- `downloaded = d.get('downloaded_bytes', 0)` (downloader.py line 51). -/
def pyDownloaded (d : RawProgress) : Nat :=
  d.downloaded_bytes.getD 0

/-- The body of `VideoDownloader._progress_hook` (downloader.py lines
47-62): normalizes one raw engine progress dict into a `DownloadProgress`.
`d.get('speed', 0) or 0` and `d.get('eta', 0) or 0` collapse to `getD 0`
since a falsy present value is `0` itself. -/
def progressOfRaw (d : RawProgress) : DownloadProgress :=
  let total := pyTotal d
  let downloaded := pyDownloaded d
  let percent : ℚ := if 0 < total then (downloaded : ℚ) / (total : ℚ) * 100 else 0
  { status := d.status.getD "unknown"
    downloaded_bytes := downloaded
    total_bytes := total
    speed := d.speed.getD 0
    eta := d.eta.getD 0
    filename := d.filename
    percent := percent }

/-- Two-digit zero-padded rendering of a value below 100; the fractional
part produced by Python `f"{x:.2f}"`. -/
def pad2 (k : Nat) : String :=
  ⟨[Nat.digitChar (k / 10), Nat.digitChar (k % 10)]⟩

/-- Python `f"{x:.2f}"` on a non-negative value, embedded over `ℚ`:
round to the nearest hundredth (ties round up in this embedding) and
render as `<integer part>.<two digits>`. -/
def fix2 (q : ℚ) : String :=
  toString (round (q * 100) / 100) ++ "." ++ pad2 (round (q * 100) % 100).toNat

/-- `format_bytes` (downloader.py lines 248-254) with its four-iteration
loop over units unrolled; each branch divides the running value by 1024
exactly as `bytes_val /= 1024` does. -/
def format_bytes (v : ℚ) : String :=
  if v < 1024 then fix2 v ++ " B"
  else if v / 1024 < 1024 then fix2 (v / 1024) ++ " KB"
  else if v / 1024 / 1024 < 1024 then fix2 (v / 1024 / 1024) ++ " MB"
  else if v / 1024 / 1024 / 1024 < 1024 then fix2 (v / 1024 / 1024 / 1024) ++ " GB"
  else fix2 (v / 1024 / 1024 / 1024 / 1024) ++ " TB"

/-- The unit chosen after `k` divisions by 1024 in `format_bytes`. -/
def unitName (k : Nat) : String :=
  (["B", "KB", "MB", "GB", "TB"].getD k "TB")

/-- A raw format dict from the engine's `extract_info` result.  Fields the
source reads with `f.get(key, default)` and then only tests for truthiness
or copies verbatim carry the defaulted value (`None`/missing collapses to
the default, which the source never distinguishes). -/
structure RawFormat where
  format_id : String
  ext : String
  resolution : String
  filesize : Nat
  vcodec : String
  acodec : String
  quality : Int
  height : Nat
  fps : Nat
deriving DecidableEq, Repr

/-- A raw entry of a flat playlist listing.  `url` is `Option` because the
source falls back on `webpage_url` when `entry.get('url')` is falsy. -/
structure RawEntry where
  url : Option String
  webpage_url : String
  title : String
  duration : Nat
  thumbnail : String
deriving DecidableEq, Repr

/-- The engine's `extract_info` result dict (only the keys the source
reads).  `formats` is used by the metadata path, `entries` by the flat
playlist path. -/
structure RawInfo where
  title : String
  duration : Nat
  thumbnail : String
  uploader : String
  formats : List RawFormat
  entries : List (Option RawEntry)
deriving DecidableEq, Repr

/-- Engine oracle for a metadata-only `extract_info(url, download=False)`
call: it may raise (`Except.error`), return a falsy result (`none`), or
return an info dict. -/
def InfoEngine : Type := String → Except String (Option RawInfo)

/-- Engine oracle for `extract_info(url, download=True)` under a format
selector: the list of raw progress dicts it feeds to the progress hooks
during the transfer, and either an exception, a falsy info (`none`), or
the final path `prepare_filename` would yield. -/
def DlEngine : Type := String → String → List RawProgress × Except String (Option String)

/-- Engine oracle for the flat playlist `extract_info` call; the second
argument is the `playlist_items` option value (`none` when the option is
`None`). -/
def ChanEngine : Type := String → Option String → Except String (Option RawInfo)

/-- The format dict built inside `get_video_info` (downloader.py lines
83-93). -/
structure FormatInfo where
  format_id : String
  ext : String
  resolution : String
  filesize : Nat
  vcodec : String
  acodec : String
  quality : Int
  height : Nat
  fps : Nat
deriving DecidableEq, Repr

/-- The `VideoInfo` dataclass of downloader.py. -/
structure VideoInfo where
  url : String
  title : String
  duration : Nat
  thumbnail : String
  uploader : String
  formats : List FormatInfo
deriving DecidableEq, Repr

/-- The per-format dict copy performed in `get_video_info`. -/
def buildFormatInfo (f : RawFormat) : FormatInfo :=
  { format_id := f.format_id
    ext := f.ext
    resolution := f.resolution
    filesize := f.filesize
    vcodec := f.vcodec
    acodec := f.acodec
    quality := f.quality
    height := f.height
    fps := f.fps }

/-- `VideoDownloader.get_video_info` (downloader.py lines 65-108): runs
the engine, returns `none` on exception or falsy info, otherwise keeps
only formats having video or audio (`vcodec != 'none' or acodec !=
'none'`) and packages a `VideoInfo`. -/
def get_video_info (e : InfoEngine) (url : String) : Option VideoInfo :=
  match e url with
  | .error _ => none
  | .ok none => none
  | .ok (some info) =>
      some { url := url
             title := info.title
             duration := info.duration
             thumbnail := info.thumbnail
             uploader := info.uploader
             formats :=
               (info.formats.filter fun f => f.vcodec ≠ "none" ∨ f.acodec ≠ "none").map
                 buildFormatInfo }

/-- A quality option dict (`{'id': ..., 'label': ...}`). -/
structure QualityOption where
  id : String
  label : String
deriving DecidableEq, Repr

/-- The fixed resolution ladder `standard_heights` (downloader.py line
122). -/
def standard_heights : List Nat := [2160, 1440, 1080, 720, 480, 360, 240, 144]

/-- The head option `quality_options[0]` (downloader.py lines 117-119). -/
def bestOption : QualityOption :=
  { id := "bestvideo+bestaudio/best", label := "Best Quality (Video + Audio)" }

/-- The option appended per available height (downloader.py lines
132-136). -/
def resOption (h : Nat) : QualityOption :=
  { id := "bestvideo[height<=" ++ toString h ++ "]+bestaudio/best[height<=" ++ toString h ++ "]"
    label := toString h ++ "p (Video + Audio)" }

/-- First audio-only option (downloader.py line 139). -/
def audioBestOption : QualityOption :=
  { id := "bestaudio/best", label := "Audio Only (Best Quality)" }

/-- Second audio-only option (downloader.py line 140). -/
def audioM4aOption : QualityOption :=
  { id := "bestaudio[ext=m4a]/bestaudio", label := "Audio Only (M4A)" }

/-- The `available_heights` set of `get_quality_options` (downloader.py
lines 124-129) rendered in the order `sorted(available_heights,
reverse=True)` produces: since every collected height belongs to
`standard_heights`, which is itself strictly descending, that sorted
set equals the sublist of `standard_heights` whose members occur as the
(truthy) `height` of some format. -/
def availableHeights (formats : List FormatInfo) : List Nat :=
  standard_heights.filter fun h => formats.any fun f => f.height = h

/-- `VideoDownloader.get_quality_options` (downloader.py lines 110-142). -/
def get_quality_options (e : InfoEngine) (url : String) : List QualityOption :=
  match get_video_info e url with
  | none => []
  | some info =>
      bestOption ::
        ((availableHeights info.formats).map resOption ++ [audioBestOption, audioM4aOption])

/-- `VideoDownloader.download_video` (downloader.py lines 144-187): one
blocking engine call; `none` on exception, `none` on falsy info
(the trailing `return None`), otherwise the prepared filename. -/
def download_video (e : DlEngine) (url quality : String) : Option String :=
  match (e url quality).2 with
  | .error _ => none
  | .ok none => none
  | .ok (some path) => some path

/-- The raw progress reports the engine delivers to the hook during one
`download_video` call. -/
def downloadReports (e : DlEngine) (url quality : String) : List RawProgress :=
  (e url quality).1

/-- `os.path.basename` on a POSIX path: the part after the last slash. -/
def basename (s : String) : String :=
  (s.splitOn "/").getLastD s

/-- Python `round(x, 1)` embedded over `ℚ` (ties round up in this
embedding). -/
def round1 (q : ℚ) : ℚ :=
  (round (q * 10) : ℚ) / 10

/-- `format_bytes(p.speed) + '/s' if p.speed else ''` (app.py line 98):
a zero speed is falsy. -/
def speedText (s : ℚ) : String :=
  if s = 0 then "" else format_bytes s ++ "/s"

/-- SocketIO events emitted by the single-download path of app.py. -/
inductive WebEvent where
  | downloadStarted (id : String)
  | downloadProgress (id : String) (status : String) (percent : ℚ) (speed : String)
      (eta : Nat) (downloaded : String) (total : String)
  | downloadComplete (id : String) (filename : String)
  | downloadError (id : String) (error : String)
deriving DecidableEq, Repr

/-- The `download_progress` payload built by `progress_callback` in
`handle_download` (app.py lines 93-104). -/
def mkWebProgress (id : String) (p : DownloadProgress) : WebEvent :=
  .downloadProgress id p.status (round1 p.percent) (speedText p.speed) p.eta
    (format_bytes p.downloaded_bytes) (format_bytes p.total_bytes)

/-- The events emitted by one run of `do_download` (app.py lines
106-127): every engine progress report is normalized by the hook and
forwarded by the callback, then exactly one terminal event is emitted —
`download_complete` with the basename of the result on success,
`download_error` with `'Download failed'` when `download_video` returned
`None`.  (`download_video` itself converts every engine exception to
`None`, so the surrounding `except` branch is unreachable in this
model.) -/
def do_download (e : DlEngine) (id url quality : String) : List WebEvent :=
  ((downloadReports e url quality).map fun d => mkWebProgress id (progressOfRaw d)) ++
    [match download_video e url quality with
     | some path => .downloadComplete id (basename path)
     | none => .downloadError id "Download failed"]

/-- A `start_download` request payload (app.py lines 80-84):
`download_id = data.get('id', url)`. -/
structure DlRequest where
  url : String
  quality : String
  id : Option String
deriving DecidableEq, Repr

/-- The id a request resolves to. -/
def reqId (r : DlRequest) : String :=
  r.id.getD r.url

/-- `handle_download` (app.py lines 79-130): an empty URL is rejected
with a `download_error`; otherwise `download_started` is emitted and the
download is spawned — its whole event trace follows. -/
def handle_download (e : DlEngine) (r : DlRequest) : List WebEvent :=
  if r.url = "" then [.downloadError (reqId r) "URL is required"]
  else .downloadStarted (reqId r) :: do_download e (reqId r) r.url r.quality

/-- Sequential processing of several `start_download` requests; app.py
keeps no per-job state between them. -/
def handleRequests (e : DlEngine) (rs : List DlRequest) : List WebEvent :=
  rs.flatMap (handle_download e)

/-- One entry of the `videos` payload of `start_batch_download`
(app.py lines 141-149). -/
structure BatchVideo where
  url : String
  title : String
deriving DecidableEq, Repr

/-- SocketIO events emitted by the batch path of app.py. -/
inductive BatchEvent where
  | batchProgress (batchId : String) (current total : Nat) (title : String)
  | downloadProgress (id batchId : String) (status : String) (percent : ℚ) (speed : String)
  | videoComplete (batchId videoId : String) (success : Bool)
  | batchComplete (batchId : String)
deriving DecidableEq, Repr

/-- `video_id = f"{batch_id}_{i}"` (app.py line 143). -/
def vidId (batchId : String) (i : Nat) : String :=
  batchId ++ "_" ++ toString i

/-- The `download_progress` payload built by the per-video callback in
`handle_batch_download` (app.py lines 152-162). -/
def mkBatchProgress (id batchId : String) (p : DownloadProgress) : BatchEvent :=
  .downloadProgress id batchId p.status (round1 p.percent) (speedText p.speed)

/-- The events of one iteration of the `do_batch_download` loop
(app.py lines 141-175): `batch_progress` first, then the forwarded
progress reports of this video's download, then `video_complete` whose
`success` flag is `result is not None`. -/
def batchJobEvents (e : DlEngine) (quality batchId : String) (total i : Nat)
    (v : BatchVideo) : List BatchEvent :=
  .batchProgress batchId (i + 1) total v.title ::
    ((downloadReports e v.url quality).map fun d =>
      mkBatchProgress (vidId batchId i) batchId (progressOfRaw d)) ++
    [.videoComplete batchId (vidId batchId i) (download_video e v.url quality).isSome]

/-- The `for i, video in enumerate(videos)` loop of `do_batch_download`,
carrying the running index. -/
def batchLoop (e : DlEngine) (quality batchId : String) (total : Nat) :
    Nat → List BatchVideo → List BatchEvent
  | _, [] => []
  | i, v :: rest =>
      batchJobEvents e quality batchId total i v ++ batchLoop e quality batchId total (i + 1) rest

/-- `do_batch_download` (app.py lines 140-177): run every video in order,
then emit `batch_complete` once. -/
def do_batch_download (e : DlEngine) (quality batchId : String)
    (videos : List BatchVideo) : List BatchEvent :=
  batchLoop e quality batchId videos.length 0 videos ++ [.batchComplete batchId]

/-- The `downloaded`/`failed` tally of the CLI batch loop
(cli.py lines 221-249): one `download_video` per video, counting
successes and failures. -/
def cliBatchTally (e : DlEngine) (quality : String) (videos : List BatchVideo) : Nat × Nat :=
  videos.foldl
    (fun acc v =>
      match download_video e v.url quality with
      | some _ => (acc.1 + 1, acc.2)
      | none => (acc.1, acc.2 + 1))
    (0, 0)

/-- The video dict appended by `get_channel_videos` (downloader.py lines
215-220). -/
structure ChVideo where
  url : String
  title : String
  duration : Nat
  thumbnail : String
deriving DecidableEq, Repr

/-- `entry.get('url') or entry.get('webpage_url', '')`: the `url` key
when truthy (present and non-empty), else `webpage_url`. -/
def entryUrl (en : RawEntry) : String :=
  match en.url with
  | some u => if u = "" then en.webpage_url else u
  | none => en.webpage_url

/-- The dict built for one truthy playlist entry. -/
def mkChVideo (en : RawEntry) : ChVideo :=
  { url := entryUrl en, title := en.title, duration := en.duration, thumbnail := en.thumbnail }

/-- `'playlist_items': f'1:{max_videos}' if max_videos else None`
(downloader.py line 199): `None` and `0` are falsy. -/
def playlistItemsHint (m : Option Nat) : Option String :=
  match m with
  | some k => if k = 0 then none else some ("1:" ++ toString k)
  | none => none

/-- `if max_videos and i >= max_videos: break` (downloader.py line 212):
the break condition is met only when `max_videos` is truthy. -/
def breakAt (m : Option Nat) (i : Nat) : Bool :=
  match m with
  | some k => decide (k ≠ 0) && decide (k ≤ i)
  | none => false

/-- The `for i, entry in enumerate(entries)` loop of `get_channel_videos`
(downloader.py lines 211-220): stop at the break condition, skip falsy
entries, append a video dict for the rest. -/
def collectVideos (m : Option Nat) : Nat → List (Option RawEntry) → List ChVideo
  | _, [] => []
  | i, en :: rest =>
      if breakAt m i then []
      else
        (match en with
         | some entry => [mkChVideo entry]
         | none => []) ++ collectVideos m (i + 1) rest

/-- `VideoDownloader.get_channel_videos` (downloader.py lines 189-224):
flat listing with the `playlist_items` hint passed to the engine; `[]` on
exception or falsy info, else the loop over `info.get('entries', [])`. -/
def get_channel_videos (ce : ChanEngine) (url : String) (m : Option Nat) : List ChVideo :=
  match ce url (playlistItemsHint m) with
  | .error _ => []
  | .ok none => []
  | .ok (some info) => collectVideos m 0 info.entries

/-- Terminal events of the single-download path: `download_complete` or
`download_error`. -/
def WebEvent.isTerminal : WebEvent → Bool
  | .downloadComplete _ _ => true
  | .downloadError _ _ => true
  | _ => false

/-- `download_started` recognizer. -/
def WebEvent.isStarted : WebEvent → Bool
  | .downloadStarted _ => true
  | _ => false

/-- `video_complete` recognizer. -/
def BatchEvent.isVideoComplete : BatchEvent → Bool
  | .videoComplete _ _ _ => true
  | _ => false

/-- `batch_complete` recognizer. -/
def BatchEvent.isBatchComplete : BatchEvent → Bool
  | .batchComplete _ => true
  | _ => false

/-- `batch_progress` recognizer. -/
def BatchEvent.isBatchProgress : BatchEvent → Bool
  | .batchProgress _ _ _ _ => true
  | _ => false

/-- `download_progress` recognizer (batch path). -/
def BatchEvent.isDownloadProgress : BatchEvent → Bool
  | .downloadProgress _ _ _ _ _ => true
  | _ => false

/-- A concrete raw format of height `h` carrying both codecs. -/
def rawFmt (h : Nat) : RawFormat :=
  { format_id := "f" ++ toString h
    ext := "mp4"
    resolution := toString h ++ "p"
    filesize := 1000
    vcodec := "vp9"
    acodec := "opus"
    quality := 1
    height := h
    fps := 30 }

/-- Metadata with formats of heights 1080, 720, 2160, 720 (the spec's
quality-ladder scenario). -/
def ladderRawInfo : RawInfo :=
  { title := "T", duration := 60, thumbnail := "th", uploader := "U"
    formats := [rawFmt 1080, rawFmt 720, rawFmt 2160, rawFmt 720]
    entries := [] }

/-- Engine answering every metadata fetch with `ladderRawInfo`. -/
def ladderEngine : InfoEngine := fun _ => .ok (some ladderRawInfo)

/-- The `VideoInfo` that `get_video_info ladderEngine` produces. -/
def ladderVideoInfo : VideoInfo :=
  { url := "u", title := "T", duration := 60, thumbnail := "th", uploader := "U"
    formats :=
      [buildFormatInfo (rawFmt 1080), buildFormatInfo (rawFmt 720),
       buildFormatInfo (rawFmt 2160), buildFormatInfo (rawFmt 720)] }

/-- Metadata whose `formats` list is empty (fetch succeeds, zero
formats). -/
def noFormatsInfo : RawInfo :=
  { title := "T", duration := 0, thumbnail := "", uploader := "U", formats := [], entries := [] }

/-- Engine answering every metadata fetch with `noFormatsInfo`. -/
def noFormatsEngine : InfoEngine := fun _ => .ok (some noFormatsInfo)

/-- Metadata engine that always raises. -/
def errInfoEngine : InfoEngine := fun _ => .error "network down"

/-- Metadata engine whose result is falsy (`None`). -/
def nullInfoEngine : InfoEngine := fun _ => .ok none

/-- Download engine that always raises. -/
def errDlEngine : DlEngine := fun _ _ => ([], .error "network down")

/-- Playlist engine that always raises. -/
def errChanEngine : ChanEngine := fun _ _ => .error "network down"

/-- A raw progress report midway through a transfer. -/
def okReport1 : RawProgress :=
  { status := some "downloading", total_bytes := some 1000, total_bytes_estimate := none
    downloaded_bytes := some 500, speed := some 100, eta := some 5
    filename := "downloads/t.mp4" }

/-- A raw progress report at the end of a transfer. -/
def okReport2 : RawProgress :=
  { status := some "finished", total_bytes := some 1000, total_bytes_estimate := none
    downloaded_bytes := some 1000, speed := none, eta := some 0
    filename := "downloads/t.mp4" }

/-- Download engine that reports progress twice and succeeds. -/
def okDlEngine : DlEngine := fun _ _ => ([okReport1, okReport2], .ok (some "downloads/t.mp4"))

/-- A `start_download` request carrying an explicit id. -/
def twiceReq : DlRequest := { url := "u", quality := "best", id := some "job1" }

/-- A raw progress dict whose downloaded bytes exceed the total (the
engine's total is an estimate and can undershoot). -/
def overshootRaw : RawProgress :=
  { status := some "downloading", total_bytes := some 100, total_bytes_estimate := none
    downloaded_bytes := some 200, speed := none, eta := none, filename := "f" }

/-- A raw progress dict with unknown (falsy) totals. -/
def zeroTotalRaw : RawProgress :=
  { status := some "downloading", total_bytes := none, total_bytes_estimate := some 0
    downloaded_bytes := some 500, speed := none, eta := none, filename := "f" }

/-- A well-behaved raw progress dict (500 of 1000 bytes). -/
def halfRaw : RawProgress :=
  { status := some "downloading", total_bytes := some 1000, total_bytes_estimate := none
    downloaded_bytes := some 500, speed := some 10, eta := some 1, filename := "f" }

/-- Download engine for the 3-job batch scenario: the job for `u2`
fails, the others succeed. -/
def batchDlEngine : DlEngine := fun url _ =>
  if url = "u2" then ([], .error "boom")
  else ([], .ok (some ("downloads/" ++ url ++ ".mp4")))

/-- The 3-video batch where exactly the second job fails under
`batchDlEngine`. -/
def batchVideos : List BatchVideo := [⟨"u1", "t1"⟩, ⟨"u2", "t2"⟩, ⟨"u3", "t3"⟩]

/-- The `n`-th entry of the 5-entry playlist scenario. -/
def chEntry (n : Nat) : RawEntry :=
  { url := some ("v" ++ toString n), webpage_url := "w" ++ toString n
    title := "t" ++ toString n, duration := n, thumbnail := "m" ++ toString n }

/-- A 5-entry flat listing. -/
def fiveEntriesInfo : RawInfo :=
  { title := "pl", duration := 0, thumbnail := "", uploader := "", formats := []
    entries := [some (chEntry 1), some (chEntry 2), some (chEntry 3),
                some (chEntry 4), some (chEntry 5)] }

/-- Playlist engine returning all five entries whatever the
`playlist_items` hint says (so the defensive client-side cap must do the
trimming). -/
def fiveEntriesEngine : ChanEngine := fun _ _ => .ok (some fiveEntriesInfo)

/-- Shared: the fractional part printed by `fix2` always has exactly two
digits. -/
theorem fix2_shape (q : ℚ) : ∃ a b, fix2 q = a ++ ("." ++ b) ∧ b.length = 2 :=
  ⟨toString (round (q * 100) / 100), pad2 (round (q * 100) % 100).toNat,
    by rw [fix2, String.append_assoc], rfl⟩

/-- Claim C9: for every non-negative byte count, `format_bytes` returns
`"<x.xx> <unit>"`, the unit escalating by one step (B, KB, MB, GB, TB)
for every factor of 1024; in particular `format_bytes 500 = "500.00 B"`,
`format_bytes 1536 = "1.50 KB"`, and `format_bytes (1024 ^ 4) =
"1.00 TB"`. -/
theorem format_bytes_unit_ladder :
    (∀ v : ℚ, 0 ≤ v →
      ∃ k, k ≤ 4 ∧
        format_bytes v = fix2 (v / 1024 ^ k) ++ (" " ++ unitName k) ∧
        (∃ a b, fix2 (v / 1024 ^ k) = a ++ ("." ++ b) ∧ b.length = 2) ∧
        (k = 0 ∨ (1024 : ℚ) ^ k ≤ v) ∧
        (k = 4 ∨ v < (1024 : ℚ) ^ (k + 1))) ∧
    format_bytes 500 = "500.00 B" ∧
    format_bytes 1536 = "1.50 KB" ∧
    format_bytes ((1024 : ℚ) ^ 4) = "1.00 TB" := by
  have hpos : (0 : ℚ) < 1024 := by norm_num
  refine ⟨?_, ?_, ?_, ?_⟩
  · intro v _
    by_cases h0 : v < 1024
    · refine ⟨0, by norm_num, ?_, fix2_shape _, Or.inl rfl, Or.inr (by simpa using h0)⟩
      rw [format_bytes, if_pos h0, pow_zero, div_one]
      rfl
    · by_cases h1 : v / 1024 < 1024
      · refine ⟨1, by norm_num, ?_, fix2_shape _, Or.inr ?_, Or.inr ?_⟩
        · rw [format_bytes, if_neg h0, if_pos h1, pow_one]
          rfl
        · simpa using le_of_not_lt h0
        · have h := (div_lt_iff₀ hpos).mp h1
          norm_num at h ⊢
          linarith
      · by_cases h2 : v / 1024 / 1024 < 1024
        · refine ⟨2, by norm_num, ?_, fix2_shape _, Or.inr ?_, Or.inr ?_⟩
          · rw [format_bytes, if_neg h0, if_neg h1, if_pos h2, div_div]
            norm_num
            rfl
          · have h := (le_div_iff₀ hpos).mp (le_of_not_lt h1)
            norm_num at h ⊢
            linarith
          · have h := (div_lt_iff₀ hpos).mp ((div_lt_iff₀ hpos).mp h2)
            norm_num at h ⊢
            linarith
        · by_cases h3 : v / 1024 / 1024 / 1024 < 1024
          · refine ⟨3, by norm_num, ?_, fix2_shape _, Or.inr ?_, Or.inr ?_⟩
            · rw [format_bytes, if_neg h0, if_neg h1, if_neg h2, if_pos h3, div_div, div_div]
              norm_num
              rfl
            · have h := (le_div_iff₀ hpos).mp ((le_div_iff₀ hpos).mp (le_of_not_lt h2))
              norm_num at h ⊢
              linarith
            · have h := (div_lt_iff₀ hpos).mp ((div_lt_iff₀ hpos).mp ((div_lt_iff₀ hpos).mp h3))
              norm_num at h ⊢
              linarith
          · refine ⟨4, le_refl 4, ?_, fix2_shape _, Or.inr ?_, Or.inl rfl⟩
            · rw [format_bytes, if_neg h0, if_neg h1, if_neg h2, if_neg h3,
                div_div, div_div, div_div]
              norm_num
              rfl
            · have h := (le_div_iff₀ hpos).mp
                ((le_div_iff₀ hpos).mp ((le_div_iff₀ hpos).mp (le_of_not_lt h3)))
              norm_num at h ⊢
              linarith
  · rw [format_bytes, if_pos (by norm_num : (500 : ℚ) < 1024), fix2,
      (by norm_num [round_eq] : round ((500 : ℚ) * 100) = 50000)]
    decide
  · rw [format_bytes, if_neg (by norm_num : ¬ ((1536 : ℚ) < 1024)),
      if_pos (by norm_num : (1536 : ℚ) / 1024 < 1024), fix2,
      (by norm_num [round_eq] : round ((1536 : ℚ) / 1024 * 100) = 150)]
    decide
  · rw [format_bytes, if_neg (by norm_num : ¬ ((1024 : ℚ) ^ 4 < 1024)),
      if_neg (by norm_num : ¬ ((1024 : ℚ) ^ 4 / 1024 < 1024)),
      if_neg (by norm_num : ¬ ((1024 : ℚ) ^ 4 / 1024 / 1024 < 1024)),
      if_neg (by norm_num : ¬ ((1024 : ℚ) ^ 4 / 1024 / 1024 / 1024 < 1024)), fix2,
      (by norm_num [round_eq] :
        round ((1024 : ℚ) ^ 4 / 1024 / 1024 / 1024 / 1024 * 100) = 100)]
    decide

/-- Witness for C9: the unit-ladder part applied at the concrete value
1536. -/
theorem format_bytes_unit_ladder_witness :
    ∃ k, k ≤ 4 ∧
      format_bytes 1536 = fix2 ((1536 : ℚ) / 1024 ^ k) ++ (" " ++ unitName k) ∧
      (∃ a b, fix2 ((1536 : ℚ) / 1024 ^ k) = a ++ ("." ++ b) ∧ b.length = 2) ∧
      (k = 0 ∨ (1024 : ℚ) ^ k ≤ 1536) ∧
      (k = 4 ∨ (1536 : ℚ) < 1024 ^ (k + 1)) :=
  format_bytes_unit_ladder.1 1536 (by norm_num)

/-- Claim C3 (amended): the normalized percent equals
`downloadedBytes / totalBytes * 100` when `totalBytes > 0` and is `0`
when the normalized total is zero/unknown (no division happens then);
percent is always non-negative, and lies in `[0, 100]` whenever
`downloadedBytes ≤ totalBytes` — but it is not clamped, so it can exceed
100 when the engine's total undershoots. -/
theorem progress_percent_spec (d : RawProgress) :
    ((progressOfRaw d).total_bytes = 0 → (progressOfRaw d).percent = 0) ∧
    (0 < (progressOfRaw d).total_bytes →
      (progressOfRaw d).percent =
        ((progressOfRaw d).downloaded_bytes : ℚ) / ((progressOfRaw d).total_bytes : ℚ) * 100) ∧
    0 ≤ (progressOfRaw d).percent ∧
    ((progressOfRaw d).downloaded_bytes ≤ (progressOfRaw d).total_bytes →
      (progressOfRaw d).percent ≤ 100) := by
  have htot : (progressOfRaw d).total_bytes = pyTotal d := rfl
  have hdl : (progressOfRaw d).downloaded_bytes = pyDownloaded d := rfl
  have hp : (progressOfRaw d).percent =
      if 0 < pyTotal d then (pyDownloaded d : ℚ) / (pyTotal d : ℚ) * 100 else 0 := rfl
  rw [htot, hdl, hp]
  refine ⟨?_, ?_, ?_, ?_⟩
  · intro h
    rw [h]
    simp
  · intro h
    rw [if_pos h]
  · split
    · positivity
    · norm_num
  · intro hle
    split
    · rename_i h
      have hposQ : (0 : ℚ) < (pyTotal d : ℚ) := by exact_mod_cast h
      have h1 : (pyDownloaded d : ℚ) / (pyTotal d : ℚ) ≤ 1 := by
        rw [div_le_one hposQ]
        exact_mod_cast hle
      nlinarith
    · norm_num

/-- Counterexample to C3 as stated: a raw report whose downloaded bytes
(200) exceed the reported total (100) yields percent 200, outside
`[0, 100]`. -/
theorem progress_percent_cex :
    (progressOfRaw overshootRaw).downloaded_bytes = 200 ∧
    (progressOfRaw overshootRaw).total_bytes = 100 ∧
    (progressOfRaw overshootRaw).percent = 200 ∧
    ¬ (progressOfRaw overshootRaw).percent ≤ 100 := by
  refine ⟨rfl, rfl, ?_, ?_⟩
  · show (if 0 < pyTotal overshootRaw then
        (pyDownloaded overshootRaw : ℚ) / (pyTotal overshootRaw : ℚ) * 100 else 0) = 200
    norm_num [pyTotal, pyDownloaded, pyOrNat, overshootRaw]
  · show ¬ (if 0 < pyTotal overshootRaw then
        (pyDownloaded overshootRaw : ℚ) / (pyTotal overshootRaw : ℚ) * 100 else 0) ≤ 100
    norm_num [pyTotal, pyDownloaded, pyOrNat, overshootRaw]

/-- Witness for C3: the amended bounds applied to concrete reports — a
falsy total yields percent 0, and 500 of 1000 bytes stays within
`[0, 100]`. -/
theorem progress_percent_spec_witness :
    (progressOfRaw zeroTotalRaw).percent = 0 ∧
    0 ≤ (progressOfRaw halfRaw).percent ∧ (progressOfRaw halfRaw).percent ≤ 100 :=
  ⟨(progress_percent_spec zeroTotalRaw).1 (by decide),
   (progress_percent_spec halfRaw).2.2.1,
   (progress_percent_spec halfRaw).2.2.2 (by decide)⟩

/-- Claim C10: a batch with an empty video list emits `batch_complete`
exactly once (for its batch id) and nothing else — no `batch_progress`,
`download_progress`, or `video_complete` events. -/
theorem batch_empty_spec (e : DlEngine) (quality batchId : String) :
    do_batch_download e quality batchId [] = [.batchComplete batchId] ∧
    (do_batch_download e quality batchId []).countP BatchEvent.isBatchComplete = 1 ∧
    (do_batch_download e quality batchId []).countP BatchEvent.isVideoComplete = 0 ∧
    (do_batch_download e quality batchId []).countP BatchEvent.isBatchProgress = 0 ∧
    (do_batch_download e quality batchId []).countP BatchEvent.isDownloadProgress = 0 := by
  refine ⟨rfl, ?_, ?_, ?_, ?_⟩ <;>
    simp [do_batch_download, batchLoop, List.countP_cons, List.countP_nil,
      BatchEvent.isBatchComplete, BatchEvent.isVideoComplete, BatchEvent.isBatchProgress,
      BatchEvent.isDownloadProgress]

/-- Counterexample to C4 as stated: a metadata fetch that succeeds with
zero formats makes `get_quality_options` return the three generic
options, not an empty sequence. -/
theorem quality_options_no_formats_cex :
    get_video_info noFormatsEngine "u" =
      some { url := "u", title := "T", duration := 0, thumbnail := "", uploader := "U",
             formats := [] } ∧
    get_quality_options noFormatsEngine "u" ≠ [] ∧
    (get_quality_options noFormatsEngine "u").length = 3 := by
  refine ⟨rfl, ?_, rfl⟩
  decide

/-- Claim C4 (amended): when the metadata fetch succeeds but yields zero
formats, `get_quality_options` returns — without error — exactly the
best-quality option followed by the two audio-only options (no
resolution options), rather than an empty sequence. -/
theorem quality_options_no_formats_spec (e : InfoEngine) (url : String) (info : VideoInfo)
    (hinfo : get_video_info e url = some info) (hfmt : info.formats = []) :
    get_quality_options e url = [bestOption, audioBestOption, audioM4aOption] := by
  simp only [get_quality_options, hinfo, hfmt]
  decide

/-- Witness for C4: the amended statement applied to the concrete
zero-format engine. -/
theorem quality_options_no_formats_spec_witness :
    get_quality_options noFormatsEngine "u" = [bestOption, audioBestOption, audioM4aOption] :=
  quality_options_no_formats_spec noFormatsEngine "u"
    { url := "u", title := "T", duration := 0, thumbnail := "", uploader := "U", formats := [] }
    rfl rfl

/-- Claim C7: every engine exception is caught at the adapter boundary —
metadata fetch, quality listing, download and playlist listing all turn a
raised exception into a failure value (`none` / `[]`) instead of letting
it escape; a falsy engine result for a single-entity metadata fetch is
signalled as `none`, not as an exception. -/
theorem adapter_error_boundary_spec :
    (∀ (e : InfoEngine) (url msg : String),
      e url = .error msg → get_video_info e url = none) ∧
    (∀ (e : InfoEngine) (url : String),
      e url = .ok none → get_video_info e url = none) ∧
    (∀ (e : InfoEngine) (url msg : String),
      e url = .error msg → get_quality_options e url = []) ∧
    (∀ (e : DlEngine) (url quality msg : String),
      (e url quality).2 = .error msg → download_video e url quality = none) ∧
    (∀ (ce : ChanEngine) (url msg : String) (m : Option Nat),
      ce url (playlistItemsHint m) = .error msg → get_channel_videos ce url m = []) := by
  refine ⟨?_, ?_, ?_, ?_, ?_⟩
  · intro e url msg h
    simp [get_video_info, h]
  · intro e url h
    simp [get_video_info, h]
  · intro e url msg h
    simp [get_quality_options, get_video_info, h]
  · intro e url quality msg h
    simp [download_video, h]
  · intro ce url msg m h
    simp [get_channel_videos, h]

/-- Witness for C7: the boundary conversions at concrete raising/null
engines. -/
theorem adapter_error_boundary_spec_witness :
    get_video_info errInfoEngine "u" = none ∧
    get_video_info nullInfoEngine "u" = none ∧
    get_quality_options errInfoEngine "u" = [] ∧
    download_video errDlEngine "u" "best" = none ∧
    get_channel_videos errChanEngine "u" (some 5) = [] :=
  ⟨adapter_error_boundary_spec.1 errInfoEngine "u" "network down" rfl,
   adapter_error_boundary_spec.2.1 nullInfoEngine "u" rfl,
   adapter_error_boundary_spec.2.2.1 errInfoEngine "u" "network down" rfl,
   adapter_error_boundary_spec.2.2.2.1 errDlEngine "u" "best" "network down" rfl,
   adapter_error_boundary_spec.2.2.2.2 errChanEngine "u" "network down" (some 5) rfl⟩

/-- Shared: the forwarded progress events of one download are never
terminal events. -/
theorem countP_terminal_progress (l : List RawProgress) (id : String) :
    (l.map fun d => mkWebProgress id (progressOfRaw d)).countP WebEvent.isTerminal = 0 := by
  induction l with
  | nil => rfl
  | cons d rest ih =>
      rw [List.map_cons, List.countP_cons, ih]
      rfl

/-- Shared: one `do_download` run emits exactly one terminal event. -/
theorem countP_terminal_do_download (e : DlEngine) (id url quality : String) :
    (do_download e id url quality).countP WebEvent.isTerminal = 1 := by
  rw [do_download, List.countP_append, countP_terminal_progress]
  rcases hdl : download_video e url quality with _ | path <;> simp [hdl, WebEvent.isTerminal]

/-- Claim C6: every job emits exactly one terminal event — a completion
event carrying the result path on success, an error event on failure —
it comes after every progress event of the job, and nothing for the job
is emitted after it. -/
theorem job_terminal_event_spec (e : DlEngine) (id url quality : String) :
    (do_download e id url quality).countP WebEvent.isTerminal = 1 ∧
    (∃ t, (do_download e id url quality).getLast? = some t ∧ WebEvent.isTerminal t = true) ∧
    (∀ ev ∈ (do_download e id url quality).dropLast, WebEvent.isTerminal ev = false) ∧
    (∀ path, download_video e url quality = some path →
      (do_download e id url quality).getLast? = some (.downloadComplete id (basename path))) ∧
    (download_video e url quality = none →
      (do_download e id url quality).getLast? = some (.downloadError id "Download failed")) := by
  refine ⟨countP_terminal_do_download e id url quality, ?_, ?_, ?_, ?_⟩
  · refine ⟨_, List.getLast?_concat _, ?_⟩
    rcases download_video e url quality with _ | path <;> rfl
  · intro ev hev
    rw [do_download, List.dropLast_concat] at hev
    rcases List.mem_map.mp hev with ⟨d, _, rfl⟩
    rfl
  · intro path hpath
    rw [do_download, hpath, List.getLast?_concat]
  · intro hpath
    rw [do_download, hpath, List.getLast?_concat]

/-- Witness for C6: the success and failure implications at concrete
engines. -/
theorem job_terminal_event_spec_witness :
    (do_download okDlEngine "j" "u" "best").getLast? =
      some (.downloadComplete "j" (basename "downloads/t.mp4")) ∧
    (do_download errDlEngine "j" "u" "best").getLast? =
      some (.downloadError "j" "Download failed") :=
  ⟨(job_terminal_event_spec okDlEngine "j" "u" "best").2.2.2.1 "downloads/t.mp4" rfl,
   (job_terminal_event_spec errDlEngine "j" "u" "best").2.2.2.2 rfl⟩

/-- Shared: a `do_download` run never emits `download_started`. -/
theorem countP_started_do_download (e : DlEngine) (id url quality : String) :
    (do_download e id url quality).countP WebEvent.isStarted = 0 := by
  rw [do_download, List.countP_append]
  have h1 : ((downloadReports e url quality).map fun d =>
      mkWebProgress id (progressOfRaw d)).countP WebEvent.isStarted = 0 := by
    induction downloadReports e url quality with
    | nil => rfl
    | cons d rest ih =>
        rw [List.map_cons, List.countP_cons, ih]
        rfl
  rw [h1]
  rcases download_video e url quality with _ | path <;> rfl

/-- Counterexample to C5 as stated: two identical `start_download`
requests for the same job id both launch a download — the trace of
processing the request twice holds two `download_started` events and two
terminal events for that id, and no failure event of any kind (there is
no `InvalidState` in the event vocabulary of app.py at all). -/
theorem double_start_cex :
    (handleRequests okDlEngine [twiceReq, twiceReq]).countP WebEvent.isStarted = 2 ∧
    (handleRequests okDlEngine [twiceReq, twiceReq]).countP
      (fun ev => ev == .downloadStarted "job1") = 2 ∧
    (handleRequests okDlEngine [twiceReq, twiceReq]).countP WebEvent.isTerminal = 2 ∧
    (handleRequests okDlEngine [twiceReq, twiceReq]).countP
      (fun ev => match ev with | .downloadError _ _ => true | _ => false) = 0 := by
  refine ⟨?_, ?_, ?_, ?_⟩ <;> decide

/-- Claim C5 (amended): `start_download` has no single-start guard:
every request with a non-empty URL — including a repeated request for
the same job id — emits `download_started` and launches a fresh
download, so processing the same request twice yields two started and
two terminal events; no `InvalidState` failure exists. -/
theorem double_start_spec (e : DlEngine) (r : DlRequest) (h : r.url ≠ "") :
    handleRequests e [r, r] = handle_download e r ++ handle_download e r ∧
    (handleRequests e [r, r]).countP WebEvent.isStarted = 2 ∧
    (handleRequests e [r, r]).countP WebEvent.isTerminal = 2 := by
  have happ : handleRequests e [r, r] = handle_download e r ++ handle_download e r := by
    simp [handleRequests]
  have hone : (handle_download e r).countP WebEvent.isStarted = 1 := by
    rw [handle_download, if_neg h, List.countP_cons, countP_started_do_download]
    rfl
  have hterm : (handle_download e r).countP WebEvent.isTerminal = 1 := by
    rw [handle_download, if_neg h, List.countP_cons, countP_terminal_do_download]
    rfl
  refine ⟨happ, ?_, ?_⟩
  · rw [happ, List.countP_append, hone]
  · rw [happ, List.countP_append, hterm]

/-- Witness for C5: the amended statement at the concrete repeated
request. -/
theorem double_start_spec_witness :
    handleRequests okDlEngine [twiceReq, twiceReq] =
      handle_download okDlEngine twiceReq ++ handle_download okDlEngine twiceReq ∧
    (handleRequests okDlEngine [twiceReq, twiceReq]).countP WebEvent.isStarted = 2 ∧
    (handleRequests okDlEngine [twiceReq, twiceReq]).countP WebEvent.isTerminal = 2 :=
  double_start_spec okDlEngine twiceReq (by decide)

/-- Shared: no resolution option on the standard ladder coincides with
the best-quality option or an audio-only option. -/
theorem res_opt_distinct :
    ∀ h ∈ standard_heights,
      resOption h ≠ bestOption ∧ resOption h ≠ audioBestOption ∧ resOption h ≠ audioM4aOption := by
  decide

/-- Shared: an option distinct from every ladder option never occurs
among the mapped resolution options. -/
theorem count_res_opts (hs : List Nat) (hsub : ∀ h ∈ hs, h ∈ standard_heights)
    (o : QualityOption) (ho : ∀ h ∈ standard_heights, resOption h ≠ o) :
    (hs.map resOption).count o = 0 := by
  rw [List.count_eq_zero]
  intro hmem
  rcases List.mem_map.mp hmem with ⟨h, hh, heq⟩
  exact ho h (hsub h hh) heq

/-- Claim C2: for every URL whose metadata fetch succeeds with at least
one format, the quality-option list is exactly one best-quality option
first, then one option per distinct available ladder height in strictly
descending order, then exactly two audio-only options last; for heights
{1080, 720, 2160, 720} this yields best, 2160p, 1080p, 720p, then the
two audio options. -/
theorem quality_ladder_spec :
    (∀ (e : InfoEngine) (url : String) (info : VideoInfo),
      get_video_info e url = some info → info.formats ≠ [] →
      get_quality_options e url =
        bestOption :: ((availableHeights info.formats).map resOption ++
          [audioBestOption, audioM4aOption]) ∧
      (get_quality_options e url).head? = some bestOption ∧
      (get_quality_options e url).count bestOption = 1 ∧
      (availableHeights info.formats).Pairwise (· > ·) ∧
      (∀ h, h ∈ availableHeights info.formats ↔
        (h ∈ standard_heights ∧ ∃ f ∈ info.formats, f.height = h)) ∧
      (get_quality_options e url).drop ((get_quality_options e url).length - 2) =
        [audioBestOption, audioM4aOption] ∧
      (get_quality_options e url).count audioBestOption = 1 ∧
      (get_quality_options e url).count audioM4aOption = 1) ∧
    get_quality_options ladderEngine "u" =
      [bestOption, resOption 2160, resOption 1080, resOption 720,
       audioBestOption, audioM4aOption] := by
  constructor
  · intro e url info hinfo _
    have hsub : ∀ h ∈ availableHeights info.formats, h ∈ standard_heights :=
      fun h hh => (List.mem_filter.mp hh).1
    have hstruct : get_quality_options e url =
        bestOption :: ((availableHeights info.formats).map resOption ++
          [audioBestOption, audioM4aOption]) := by
      simp only [get_quality_options, hinfo]
    refine ⟨hstruct, ?_, ?_, ?_, ?_, ?_, ?_, ?_⟩
    · rw [hstruct]
      rfl
    · rw [hstruct, List.count_cons_self, List.count_append,
        count_res_opts _ hsub bestOption (fun h hh => (res_opt_distinct h hh).1)]
      decide
    · exact List.Pairwise.filter _ (by decide)
    · intro h
      simp [availableHeights, List.mem_filter, List.any_eq_true]
    · rw [hstruct]
      rw [← List.cons_append]
      have hlen : ((bestOption :: (availableHeights info.formats).map resOption) ++
          [audioBestOption, audioM4aOption]).length =
          (bestOption :: (availableHeights info.formats).map resOption).length + 2 := by
        simp
      rw [hlen, Nat.add_sub_cancel, List.drop_left]
    · rw [hstruct, List.count_cons, List.count_append,
        count_res_opts _ hsub audioBestOption (fun h hh => (res_opt_distinct h hh).2.1)]
      decide
    · rw [hstruct, List.count_cons, List.count_append,
        count_res_opts _ hsub audioM4aOption (fun h hh => (res_opt_distinct h hh).2.2)]
      decide
  · decide

/-- Witness for C2: the ladder invariants applied to the concrete engine
whose formats have heights 1080, 720, 2160, 720. -/
theorem quality_ladder_spec_witness :
    get_quality_options ladderEngine "u" =
      bestOption :: ((availableHeights ladderVideoInfo.formats).map resOption ++
        [audioBestOption, audioM4aOption]) ∧
    (get_quality_options ladderEngine "u").head? = some bestOption ∧
    (get_quality_options ladderEngine "u").count bestOption = 1 ∧
    (availableHeights ladderVideoInfo.formats).Pairwise (· > ·) ∧
    (∀ h, h ∈ availableHeights ladderVideoInfo.formats ↔
      (h ∈ standard_heights ∧ ∃ f ∈ ladderVideoInfo.formats, f.height = h)) ∧
    (get_quality_options ladderEngine "u").drop
        ((get_quality_options ladderEngine "u").length - 2) =
      [audioBestOption, audioM4aOption] ∧
    (get_quality_options ladderEngine "u").count audioBestOption = 1 ∧
    (get_quality_options ladderEngine "u").count audioM4aOption = 1 :=
  quality_ladder_spec.1 ladderEngine "u" ladderVideoInfo rfl (by decide)

/-- Shared: forwarded per-video progress events are never
`video_complete`. -/
theorem filter_vc_progress (l : List RawProgress) (id b : String) :
    (l.map fun d => mkBatchProgress id b (progressOfRaw d)).filter
      BatchEvent.isVideoComplete = [] := by
  induction l with
  | nil => rfl
  | cons d rest ih =>
      rw [List.map_cons, List.filter_cons]
      exact ih

/-- Shared: one batch-loop iteration contributes exactly its own
`video_complete` event, whatever the job's outcome. -/
theorem filter_vc_job (e : DlEngine) (quality batchId : String) (total i : Nat)
    (v : BatchVideo) :
    (batchJobEvents e quality batchId total i v).filter BatchEvent.isVideoComplete =
      [.videoComplete batchId (vidId batchId i) (download_video e v.url quality).isSome] := by
  simp only [batchJobEvents, List.filter_append, List.filter_cons]
  rw [filter_vc_progress]
  rfl

/-- Shared: the batch loop's `video_complete` events are, in order, one
per video with that video's own success flag. -/
theorem batchLoop_filter_vc (e : DlEngine) (quality batchId : String) (total : Nat)
    (videos : List BatchVideo) :
    ∀ i, (batchLoop e quality batchId total i videos).filter BatchEvent.isVideoComplete =
      (videos.enumFrom i).map fun iv =>
        BatchEvent.videoComplete batchId (vidId batchId iv.1)
          (download_video e iv.2.url quality).isSome := by
  induction videos with
  | nil => intro i; rfl
  | cons v rest ih =>
      intro i
      rw [batchLoop, List.filter_append, filter_vc_job, ih (i + 1)]
      rfl

/-- Shared: no `batch_complete` is emitted inside the batch loop. -/
theorem countP_bc_loop (e : DlEngine) (quality batchId : String) (total : Nat)
    (videos : List BatchVideo) :
    ∀ i, (batchLoop e quality batchId total i videos).countP
      BatchEvent.isBatchComplete = 0 := by
  induction videos with
  | nil => intro i; rfl
  | cons v rest ih =>
      intro i
      rw [batchLoop, List.countP_append, ih (i + 1), Nat.add_zero, List.countP_eq_zero]
      intro ev hev
      simp only [batchJobEvents, List.mem_cons, List.mem_append, List.mem_map,
        List.mem_singleton] at hev
      rcases hev with (rfl | ⟨d, _, rfl⟩) | (rfl | hnil) <;>
        simp_all [BatchEvent.isBatchComplete, mkBatchProgress]

/-- Claim C1: every job of a batch runs to completion in order, a
`video_complete` event with the job's own success flag is emitted for
every job even when one fails, `batch_complete` fires exactly once after
the last job, and for the 3-job batch where exactly job 2 fails the
CLI end-of-batch tally is succeeded = 2, failed = 1. -/
theorem batch_isolation_spec :
    (∀ (e : DlEngine) (quality batchId : String) (videos : List BatchVideo),
      (do_batch_download e quality batchId videos).filter BatchEvent.isVideoComplete =
        videos.enum.map (fun iv =>
          BatchEvent.videoComplete batchId (vidId batchId iv.1)
            (download_video e iv.2.url quality).isSome) ∧
      (do_batch_download e quality batchId videos).countP BatchEvent.isBatchComplete = 1 ∧
      (do_batch_download e quality batchId videos).getLast? =
        some (.batchComplete batchId)) ∧
    cliBatchTally batchDlEngine "best" batchVideos = (2, 1) ∧
    (do_batch_download batchDlEngine "best" "B" batchVideos).filter
        BatchEvent.isVideoComplete =
      [.videoComplete "B" "B_0" true, .videoComplete "B" "B_1" false,
       .videoComplete "B" "B_2" true] ∧
    (do_batch_download batchDlEngine "best" "B" batchVideos).countP
      BatchEvent.isBatchComplete = 1 := by
  refine ⟨?_, by decide, by decide, by decide⟩
  intro e quality batchId videos
  refine ⟨?_, ?_, ?_⟩
  · rw [do_batch_download, List.filter_append,
      batchLoop_filter_vc e quality batchId videos.length videos 0]
    simp [List.enum, BatchEvent.isVideoComplete]
  · rw [do_batch_download, List.countP_append,
      countP_bc_loop e quality batchId videos.length videos 0]
    rfl
  · rw [do_batch_download, List.getLast?_concat]

/-- Shared: with a truthy (non-zero) `max_videos`, the entry loop of
`get_channel_videos` collects exactly the truthy entries of the first
`max_videos - i` source entries, in source order. -/
theorem collectVideos_eq_take (m : Nat) (hm : m ≠ 0) :
    ∀ (entries : List (Option RawEntry)) (i : Nat),
      collectVideos (some m) i entries =
        (entries.take (m - i)).filterMap fun o => o.map mkChVideo := by
  intro entries
  induction entries with
  | nil => intro i; simp [collectVideos]
  | cons en rest ih =>
      intro i
      rw [collectVideos.eq_def]
      dsimp only
      by_cases hbr : breakAt (some m) i = true
      · rw [if_pos hbr]
        have hle : m ≤ i := by
          simp [breakAt, hm] at hbr
          exact hbr
        have hz : m - i = 0 := by omega
        rw [hz]
        rfl
      · rw [if_neg hbr]
        have hlt : i < m := by
          simp [breakAt, hm] at hbr
          omega
        have hsub : m - i = (m - (i + 1)) + 1 := by omega
        rw [hsub, List.take_succ_cons, List.filterMap_cons, ih (i + 1)]
        rcases en with _ | entry
        · rfl
        · rfl

/-- Claim C8 (amended): for every positive caller-supplied maximum `m`,
the playlist listing returns exactly the truthy entries among the first
`m` of the engine's listing, in source order — hence at most `m`
entries; asking for 2 of a 5-entry listing returns exactly the first 2
in source order.  (A maximum of 0 is falsy in the source and disables
the cap instead.) -/
theorem playlist_cap_spec :
    (∀ (ce : ChanEngine) (url : String) (m : Nat) (info : RawInfo),
      1 ≤ m → ce url (playlistItemsHint (some m)) = .ok (some info) →
      get_channel_videos ce url (some m) =
        (info.entries.take m).filterMap (fun o => o.map mkChVideo) ∧
      (get_channel_videos ce url (some m)).length ≤ m) ∧
    get_channel_videos fiveEntriesEngine "u" (some 2) =
      [mkChVideo (chEntry 1), mkChVideo (chEntry 2)] := by
  constructor
  · intro ce url m info hm hcall
    have h1 : get_channel_videos ce url (some m) = collectVideos (some m) 0 info.entries := by
      simp only [get_channel_videos, hcall]
    have h2 : collectVideos (some m) 0 info.entries =
        (info.entries.take m).filterMap fun o => o.map mkChVideo := by
      simpa using collectVideos_eq_take m (by omega) info.entries 0
    refine ⟨h1.trans h2, ?_⟩
    rw [h1, h2]
    have h3 : (info.entries.take m).length ≤ m := by
      rw [List.length_take]
      exact min_le_left _ _
    exact le_trans (List.length_filterMap_le _ _) h3
  · decide

/-- Counterexample to C8 as stated: a caller-supplied maximum of 0 is
falsy in Python, so neither the engine-side hint nor the client-side cap
is applied — on a 5-entry listing the call returns all 5 entries, more
than the requested maximum. -/
theorem playlist_cap_zero_cex :
    playlistItemsHint (some 0) = none ∧
    (get_channel_videos fiveEntriesEngine "u" (some 0)).length = 5 ∧
    ¬ ((get_channel_videos fiveEntriesEngine "u" (some 0)).length ≤ 0) := by
  refine ⟨rfl, by decide, by decide⟩

/-- Witness for C8: the amended cap applied at maximum 2 over the
concrete 5-entry engine. -/
theorem playlist_cap_spec_witness :
    get_channel_videos fiveEntriesEngine "u" (some 2) =
      (fiveEntriesInfo.entries.take 2).filterMap (fun o => o.map mkChVideo) ∧
    (get_channel_videos fiveEntriesEngine "u" (some 2)).length ≤ 2 :=
  playlist_cap_spec.1 fiveEntriesEngine "u" 2 fiveEntriesInfo (by decide) rfl
